import Mathlib

/-!
Verification of the MRPT navigation boundary excerpt: the collision-free
distance geometric primitive (`collision_free_dist_segment_circ_robot`,
declared in `nav_plan_geometry_utils.h`), and the robot boundary contract
of `CRobot2NavInterface` (watchdog discipline, velocity command dispatch,
stop semantics, navigation clock and lifecycle events).

The repository slice ships the headers; bodies of the declared functions
are not part of the slice, so the corresponding Lean definitions are
modelled from the specification text and marked as such in their doc
comments.  Geometry is modelled over the real numbers; times and command
parameters over the rationals.
-/

namespace MrptNav

/-- A lightweight 2D point, modelling `mrpt::math::TPoint2D` with real
coordinates. -/
structure TPoint2D where
  x : ℝ
  y : ℝ

/-- Squared Euclidean distance between two points. -/
noncomputable def distSq (p q : TPoint2D) : ℝ :=
  (p.x - q.x) ^ 2 + (p.y - q.y) ^ 2

/-- Euclidean distance between two points. -/
noncomputable def distPt (p q : TPoint2D) : ℝ :=
  Real.sqrt (distSq p q)

/-- Length of the segment from `a` to `b`. -/
noncomputable def segLen (a b : TPoint2D) : ℝ :=
  Real.sqrt ((b.x - a.x) ^ 2 + (b.y - a.y) ^ 2)

/-- The point of the segment from `a` to `b` at arc length `t` from `a`
(only meaningful for a non-degenerate segment). -/
noncomputable def segPoint (a b : TPoint2D) (t : ℝ) : TPoint2D :=
  ⟨a.x + t * (b.x - a.x) / segLen a b, a.y + t * (b.y - a.y) / segLen a b⟩

/-- Arc length of the orthogonal projection of the obstacle `o` onto the
(directed) line through `a` and `b`. -/
noncomputable def tproj (a b o : TPoint2D) : ℝ :=
  ((o.x - a.x) * (b.x - a.x) + (o.y - a.y) * (b.y - a.y)) / segLen a b

/-- Squared perpendicular distance from the obstacle `o` to the line
through `a` and `b`. -/
noncomputable def dperpSq (a b o : TPoint2D) : ℝ :=
  (o.x - a.x) ^ 2 + (o.y - a.y) ^ 2 - (tproj a b o) ^ 2

/-- Error taxonomy entry for degenerate geometric queries (spec section 7,
item (c)). -/
inductive GeomError where
  | InvalidGeometry
deriving DecidableEq

/-- Result record of the collision query: whether a collision exists and,
if so, the arc length along the segment of the first contact. -/
structure ColResult where
  collides : Bool
  dist : ℝ

/-- Modelled from the spec: the body of
`collision_free_dist_segment_circ_robot`, whose implementation file is not
part of the repository slice (only its declaration in
`nav_plan_geometry_utils.h` is).  Treats the robot as a disc of radius
`robot_radius` sweeping along the straight segment from `p_start` to
`p_end` and the obstacle as a point; fails with `InvalidGeometry` when the
segment is shorter than `1e-10`; otherwise reports whether the swept disc
hits the obstacle and, if so, the arc length of first contact, obtained by
solving the quadratic for the entry point of the inflated zone. -/
noncomputable def collision_free_dist_segment_circ_robot
    (p_start p_end : TPoint2D) (robot_radius : ℝ) (obstacle : TPoint2D) :
    Except GeomError ColResult :=
  if segLen p_start p_end < 1e-10 then
    Except.error GeomError.InvalidGeometry
  else if robot_radius ^ 2 < dperpSq p_start p_end obstacle then
    Except.ok ⟨false, 0⟩
  else if tproj p_start p_end obstacle +
        Real.sqrt (robot_radius ^ 2 - dperpSq p_start p_end obstacle) < 0 ∨
      segLen p_start p_end < tproj p_start p_end obstacle -
        Real.sqrt (robot_radius ^ 2 - dperpSq p_start p_end obstacle) then
    Except.ok ⟨false, 0⟩
  else
    Except.ok ⟨true, max 0 (tproj p_start p_end obstacle -
      Real.sqrt (robot_radius ^ 2 - dperpSq p_start p_end obstacle))⟩

/-- The set of arc lengths `t` along the segment at which the swept disc of
radius `r` centred on the segment point touches the obstacle `o`. -/
def contactSet (a b : TPoint2D) (r : ℝ) (o : TPoint2D) : Set ℝ :=
  {t | 0 ≤ t ∧ t ≤ segLen a b ∧ distPt (segPoint a b t) o ≤ r}

theorem distPt_le_iff {p q : TPoint2D} {r : ℝ} (hr : 0 ≤ r) :
    distPt p q ≤ r ↔ distSq p q ≤ r ^ 2 := by
  unfold distPt
  exact Real.sqrt_le_left hr

theorem lt_distPt_iff {p q : TPoint2D} {r : ℝ} (hr : 0 ≤ r) :
    r < distPt p q ↔ r ^ 2 < distSq p q := by
  unfold distPt
  exact Real.lt_sqrt hr

/-- The squared distance from the obstacle to the segment point at arc
length `t` is a quadratic in `t` with vertex at the projection arc length
and value the squared perpendicular distance. -/
theorem distSq_segPoint (a b o : TPoint2D) (t : ℝ) (hL : segLen a b ≠ 0) :
    distSq (segPoint a b t) o = (t - tproj a b o) ^ 2 + dperpSq a b o := by
  have hL2 : (b.x - a.x) ^ 2 + (b.y - a.y) ^ 2 = segLen a b ^ 2 :=
    (Real.sq_sqrt (by positivity)).symm
  unfold distSq segPoint dperpSq tproj
  field_simp
  linear_combination (t ^ 2) * hL2

theorem mem_contactSet_iff {a b o : TPoint2D} {r : ℝ} (hL : segLen a b ≠ 0)
    (hr : 0 ≤ r) (hd : dperpSq a b o ≤ r ^ 2) (t : ℝ) :
    t ∈ contactSet a b r o ↔
      0 ≤ t ∧ t ≤ segLen a b ∧
        tproj a b o - Real.sqrt (r ^ 2 - dperpSq a b o) ≤ t ∧
        t ≤ tproj a b o + Real.sqrt (r ^ 2 - dperpSq a b o) := by
  have hkey : distPt (segPoint a b t) o ≤ r ↔
      (t - tproj a b o) ^ 2 ≤ r ^ 2 - dperpSq a b o := by
    rw [distPt_le_iff hr, distSq_segPoint a b o t hL]
    constructor <;> intro h <;> linarith
  have hsq := Real.sq_le (sub_nonneg.mpr hd) (x := t - tproj a b o)
  constructor
  · rintro ⟨h0, hsl, hc⟩
    have h2 := hsq.mp (hkey.mp hc)
    exact ⟨h0, hsl, by linarith [h2.1], by linarith [h2.2]⟩
  · rintro ⟨h0, hsl, hlo, hhi⟩
    refine ⟨h0, hsl, hkey.mpr (hsq.mpr ⟨by linarith, by linarith⟩)⟩

/-- C1.  For a non-degenerate segment and a nonnegative robot radius, the
collision query succeeds; when the obstacle lies within `robot_radius` of
some point of the segment, it reports a collision together with the least
arc length of contact, which lies between `0` and the segment length; when
the obstacle is farther than `robot_radius` from every point of the
segment, it reports no collision. -/
theorem collisionFreeDistance_correct (a b o : TPoint2D) (r : ℝ)
    (hL : 1e-10 ≤ segLen a b) (hr : 0 ≤ r) :
    ∃ res : ColResult,
      collision_free_dist_segment_circ_robot a b r o = Except.ok res ∧
      ((∃ t, t ∈ contactSet a b r o) →
        res.collides = true ∧ 0 ≤ res.dist ∧ res.dist ≤ segLen a b ∧
          IsLeast (contactSet a b r o) res.dist) ∧
      ((∀ t, 0 ≤ t → t ≤ segLen a b → r < distPt (segPoint a b t) o) →
        res.collides = false) := by
  have hL0 : (0 : ℝ) < segLen a b := lt_of_lt_of_le (by norm_num) hL
  have hLne : segLen a b ≠ 0 := ne_of_gt hL0
  have hnotlt : ¬ segLen a b < 1e-10 := not_lt.mpr hL
  unfold collision_free_dist_segment_circ_robot
  rw [if_neg hnotlt]
  by_cases hd : r ^ 2 < dperpSq a b o
  · rw [if_pos hd]
    refine ⟨⟨false, 0⟩, rfl, ?_, fun _ => rfl⟩
    rintro ⟨t, _, _, htd⟩
    exfalso
    have h1 : distSq (segPoint a b t) o ≤ r ^ 2 := (distPt_le_iff hr).mp htd
    rw [distSq_segPoint a b o t hLne] at h1
    nlinarith [sq_nonneg (t - tproj a b o)]
  · rw [if_neg hd]
    push_neg at hd
    have hs0 : 0 ≤ Real.sqrt (r ^ 2 - dperpSq a b o) := Real.sqrt_nonneg _
    by_cases hbr : tproj a b o + Real.sqrt (r ^ 2 - dperpSq a b o) < 0 ∨
        segLen a b < tproj a b o - Real.sqrt (r ^ 2 - dperpSq a b o)
    · rw [if_pos hbr]
      refine ⟨⟨false, 0⟩, rfl, ?_, fun _ => rfl⟩
      rintro ⟨t, ht⟩
      exfalso
      obtain ⟨h0, hsl, hlo, hhi⟩ := (mem_contactSet_iff hLne hr hd t).mp ht
      rcases hbr with h | h
      · linarith
      · linarith
    · rw [if_neg hbr]
      push_neg at hbr
      obtain ⟨hbr1, hbr2⟩ := hbr
      have hmem : max 0 (tproj a b o - Real.sqrt (r ^ 2 - dperpSq a b o)) ∈
          contactSet a b r o := by
        rw [mem_contactSet_iff hLne hr hd]
        refine ⟨le_max_left _ _, max_le hL0.le hbr2, le_max_right _ _,
          max_le hbr1 (by linarith)⟩
      refine ⟨⟨true, max 0 (tproj a b o - Real.sqrt (r ^ 2 - dperpSq a b o))⟩,
        rfl, ?_, ?_⟩
      · intro _
        have hmem' := hmem
        obtain ⟨hm0, hmL, -⟩ := hmem'
        refine ⟨rfl, hm0, hmL, hmem, ?_⟩
        intro t ht
        obtain ⟨h0, _, hlo, _⟩ := (mem_contactSet_iff hLne hr hd t).mp ht
        exact max_le h0 hlo
      · intro hno
        exfalso
        obtain ⟨hm0, hmL, hmd⟩ := hmem
        have := hno _ hm0 hmL
        linarith

/-- C2.  The collision query fails with `InvalidGeometry`, instead of
returning a result, exactly when the segment is degenerate, that is when
its length is below the fixed epsilon `1e-10`. -/
theorem collisionFreeDistance_degenerate_iff (a b : TPoint2D) (r : ℝ)
    (o : TPoint2D) :
    collision_free_dist_segment_circ_robot a b r o =
        Except.error GeomError.InvalidGeometry ↔
      segLen a b < 1e-10 := by
  unfold collision_free_dist_segment_circ_robot
  by_cases h : segLen a b < 1e-10
  · rw [if_pos h]
    simp [h]
  · rw [if_neg h]
    constructor
    · intro hcontra
      split_ifs at hcontra
    · intro h'
      exact absurd h' h

/-- Witness for C2: the zero-length segment from `(0,0)` to itself makes
the collision query fail with `InvalidGeometry`. -/
theorem collisionFreeDistance_degenerate_iff_witness :
    collision_free_dist_segment_circ_robot ⟨0, 0⟩ ⟨0, 0⟩ 1 ⟨5, 5⟩ =
      Except.error GeomError.InvalidGeometry := by
  apply (collisionFreeDistance_degenerate_iff ⟨0, 0⟩ ⟨0, 0⟩ 1 ⟨5, 5⟩).mpr
  unfold segLen
  rw [show ((0 : ℝ) - 0) ^ 2 + ((0 : ℝ) - 0) ^ 2 = 0 by norm_num,
    Real.sqrt_zero]
  norm_num

/-- Witness for C1 at the concrete input: segment from `(0,0)` to `(10,0)`,
robot radius `5`, obstacle at `(6,3)`. -/
theorem collisionFreeDistance_correct_witness :
    (1e-10 : ℝ) ≤ segLen ⟨0, 0⟩ ⟨10, 0⟩ ∧ (0 : ℝ) ≤ 5 ∧
      (∃ res : ColResult,
        collision_free_dist_segment_circ_robot ⟨0, 0⟩ ⟨10, 0⟩ 5 ⟨6, 3⟩ =
            Except.ok res ∧
          ((∃ t, t ∈ contactSet ⟨0, 0⟩ ⟨10, 0⟩ 5 ⟨6, 3⟩) →
            res.collides = true ∧ 0 ≤ res.dist ∧
              res.dist ≤ segLen ⟨0, 0⟩ ⟨10, 0⟩ ∧
              IsLeast (contactSet ⟨0, 0⟩ ⟨10, 0⟩ 5 ⟨6, 3⟩) res.dist) ∧
          ((∀ t, 0 ≤ t → t ≤ segLen ⟨0, 0⟩ ⟨10, 0⟩ →
              (5 : ℝ) < distPt (segPoint ⟨0, 0⟩ ⟨10, 0⟩ t) ⟨6, 3⟩) →
            res.collides = false)) := by
  have h1 : (1e-10 : ℝ) ≤ segLen ⟨0, 0⟩ ⟨10, 0⟩ := by
    unfold segLen
    rw [show ((10 : ℝ) - 0) ^ 2 + ((0 : ℝ) - 0) ^ 2 = 10 ^ 2 by norm_num,
      Real.sqrt_sq (by norm_num)]
    norm_num
  have h2 : (0 : ℝ) ≤ 5 := by norm_num
  exact ⟨h1, h2, collisionFreeDistance_correct ⟨0, 0⟩ ⟨10, 0⟩ ⟨6, 3⟩ 5 h1 h2⟩

/-! ### Watchdog timer

The watchdog state and its operations are modelled from the spec (section
3 `WatchdogState` and section 4.3): the implementation file of
`CRobot2NavInterface` is not in the repository slice, only its header.
Times are rational numbers (milliseconds). -/

/-- Modelled from the spec: the watchdog state `{period, deadline,
armed/disarmed}`, plus the boundary-side flag recording whether the
emergency stop for the current expiry has already been issued (the spec
requires the stop to fire exactly once per expiry, not once per check). -/
structure WatchdogState where
  armed : Bool
  period : ℚ
  deadline : ℚ
  stopIssued : Bool
deriving DecidableEq

/-- Modelled from the spec: the watchdog is created disarmed. -/
def WatchdogState.init : WatchdogState := ⟨false, 0, 0, false⟩

/-- Modelled from the spec: `startWatchdog(period)` arms the watchdog and
sets `deadline = now + period`. -/
def startWatchdog (s : WatchdogState) (now T : ℚ) : WatchdogState :=
  { s with
    armed := true
    period := T
    deadline := now + T
    stopIssued := false }

/-- Modelled from the spec: `stopWatchdog()` disarms the watchdog. -/
def stopWatchdog (s : WatchdogState) : WatchdogState :=
  { s with armed := false }

/-- Modelled from the spec: every accepted velocity command (including the
no-op refresh) resets `deadline = now + period` while armed; a disarmed
watchdog is unaffected. -/
def touch (s : WatchdogState) (now : ℚ) : WatchdogState :=
  if s.armed then
    { s with deadline := now + s.period, stopIssued := false }
  else s

/-- Modelled from the spec: the watchdog reports staleness when it is
armed and `now > deadline`. -/
def isExpired (s : WatchdogState) (now : ℚ) : Bool :=
  s.armed && decide (s.deadline < now)

/-- Modelled from the spec: the boundary-side periodic watchdog check.  It
issues an emergency stop (second component `true`) exactly when the
watchdog reports staleness and no stop has been issued yet for this
expiry, and records that the stop was issued. -/
def boundaryCheck (s : WatchdogState) (now : ℚ) : WatchdogState × Bool :=
  if isExpired s now && !s.stopIssued then
    ({ s with stopIssued := true }, true)
  else (s, false)

/-- A sequence of boundary checks at the given instants, with no touch in
between; returns the final state and the number of emergency stops
issued. -/
def runChecks : WatchdogState → List ℚ → WatchdogState × Nat
  | s, [] => (s, 0)
  | s, t :: ts =>
    ((runChecks (boundaryCheck s t).1 ts).1,
      (if (boundaryCheck s t).2 then 1 else 0) +
        (runChecks (boundaryCheck s t).1 ts).2)

theorem boundaryCheck_fields (s : WatchdogState) (t : ℚ) :
    (boundaryCheck s t).1.armed = s.armed ∧
      (boundaryCheck s t).1.period = s.period ∧
      (boundaryCheck s t).1.deadline = s.deadline := by
  unfold boundaryCheck
  split_ifs <;> exact ⟨rfl, rfl, rfl⟩

theorem boundaryCheck_of_stopIssued {s : WatchdogState} (t : ℚ)
    (h : s.stopIssued = true) : boundaryCheck s t = (s, false) := by
  unfold boundaryCheck
  rw [h]
  simp

theorem runChecks_of_stopIssued {s : WatchdogState} (ts : List ℚ)
    (h : s.stopIssued = true) : runChecks s ts = (s, 0) := by
  induction ts with
  | nil => rfl
  | cons t ts ih =>
    unfold runChecks
    rw [boundaryCheck_of_stopIssued t h]
    simp [ih]

theorem boundaryCheck_of_expired {s : WatchdogState} {t : ℚ}
    (ha : s.armed = true) (hd : s.deadline < t) (hi : s.stopIssued = false) :
    boundaryCheck s t = ({ s with stopIssued := true }, true) := by
  unfold boundaryCheck isExpired
  rw [ha, hi]
  simp [hd]

/-- After expiry and with no intervening touch, a nonempty sequence of
boundary checks issues exactly one emergency stop, and leaves the watchdog
state unchanged apart from the issued flag. -/
theorem runChecks_expired_once {s : WatchdogState} {ts : List ℚ}
    (ha : s.armed = true) (hi : s.stopIssued = false)
    (hd : ∀ t ∈ ts, s.deadline < t) (hne : ts ≠ []) :
    runChecks s ts = ({ s with stopIssued := true }, 1) := by
  cases ts with
  | nil => exact absurd rfl hne
  | cons t ts =>
    unfold runChecks
    rw [boundaryCheck_of_expired ha (hd t (by simp)) hi]
    rw [runChecks_of_stopIssued ts (by rfl)]
    simp

theorem touch_of_armed {s : WatchdogState} (now : ℚ) (ha : s.armed = true) :
    touch s now = { s with deadline := now + s.period, stopIssued := false } := by
  unfold touch
  rw [if_pos ha]

/-- C3.  After arming the watchdog at time `t0` with period `T`, if no
velocity command touches it and all subsequent boundary checks happen
after `t0 + T`, then the watchdog reports expiry at each of those
instants, the whole (nonempty) sequence of checks issues exactly one
emergency stop, and after the watchdog is touched again a later expiry
again triggers exactly one stop. -/
theorem watchdog_timeout_single_stop (s0 : WatchdogState) (t0 T : ℚ)
    (ts : List ℚ) (hts : ∀ t ∈ ts, t0 + T < t) (hne : ts ≠ []) :
    (∀ t ∈ ts, isExpired (startWatchdog s0 t0 T) t = true) ∧
      (runChecks (startWatchdog s0 t0 T) ts).2 = 1 ∧
      (∀ t' ts', (∀ u ∈ ts', t' + T < u) → ts' ≠ [] →
        (runChecks (touch (runChecks (startWatchdog s0 t0 T) ts).1 t')
            ts').2 = 1) := by
  have hrun : runChecks (startWatchdog s0 t0 T) ts =
      (⟨true, T, t0 + T, true⟩, 1) :=
    runChecks_expired_once rfl rfl (by intro t ht; exact hts t ht) hne
  refine ⟨?_, ?_, ?_⟩
  · intro t ht
    show (true && decide (t0 + T < t)) = true
    simp only [Bool.true_and, decide_eq_true_eq]
    exact hts t ht
  · rw [hrun]
  · intro t' ts' hts' hne'
    rw [hrun]
    have htouched : touch (⟨true, T, t0 + T, true⟩ : WatchdogState) t' =
        (⟨true, T, t' + T, false⟩ : WatchdogState) := by
      rw [touch_of_armed t' rfl]
    rw [htouched]
    rw [runChecks_expired_once rfl rfl (by intro u hu; exact hts' u hu) hne']

/-- Witness for C3: watchdog armed at time `0` with period `200`; checks
at `201`, `250` and `300` issue exactly one emergency stop. -/
theorem watchdog_timeout_single_stop_witness :
    (∀ t ∈ ([201, 250, 300] : List ℚ), (0 : ℚ) + 200 < t) ∧
      (([201, 250, 300] : List ℚ) ≠ []) ∧
      ((∀ t ∈ ([201, 250, 300] : List ℚ),
          isExpired (startWatchdog WatchdogState.init 0 200) t = true) ∧
        (runChecks (startWatchdog WatchdogState.init 0 200)
            [201, 250, 300]).2 = 1 ∧
        (∀ t' ts', (∀ u ∈ ts', t' + 200 < u) → ts' ≠ [] →
          (runChecks (touch (runChecks (startWatchdog WatchdogState.init 0
              200) [201, 250, 300]).1 t') ts').2 = 1)) := by
  have h1 : ∀ t ∈ ([201, 250, 300] : List ℚ), (0 : ℚ) + 200 < t := by
    intro t ht
    simp only [List.mem_cons, List.not_mem_nil, or_false] at ht
    rcases ht with h | h | h <;> subst h <;> norm_num
  have h2 : ([201, 250, 300] : List ℚ) ≠ [] := by simp
  exact ⟨h1, h2,
    watchdog_timeout_single_stop WatchdogState.init 0 200 [201, 250, 300]
      h1 h2⟩

/-- C8.  A disarmed watchdog never reports expiry: the freshly created
watchdog is disarmed, `stopWatchdog` disarms, touching preserves the
armed flag, and `startWatchdog` arms; in every disarmed state `isExpired`
is false at every time. -/
theorem watchdog_disarmed_never_expired :
    (∀ (s : WatchdogState) (now : ℚ), s.armed = false →
        isExpired s now = false) ∧
      (∀ now : ℚ, isExpired WatchdogState.init now = false) ∧
      (∀ (s : WatchdogState) (now : ℚ),
        isExpired (stopWatchdog s) now = false) ∧
      (∀ (s : WatchdogState) (t : ℚ), (touch s t).armed = s.armed) ∧
      (∀ (s : WatchdogState) (t0 T : ℚ),
        (startWatchdog s t0 T).armed = true) := by
  have hbase : ∀ (s : WatchdogState) (now : ℚ), s.armed = false →
      isExpired s now = false := by
    intro s now h
    unfold isExpired
    rw [h]
    rfl
  refine ⟨hbase, ?_, ?_, ?_, ?_⟩
  · intro now
    exact hbase _ now rfl
  · intro s now
    exact hbase _ now rfl
  · intro s t
    unfold touch
    split_ifs <;> rfl
  · intro s t0 T
    rfl

/-- Witness for C8: a concrete disarmed watchdog state is not expired even
far past its stale deadline. -/
theorem watchdog_disarmed_never_expired_witness :
    isExpired ⟨false, 200, 50, false⟩ 1000 = false :=
  watchdog_disarmed_never_expired.1 ⟨false, 200, 50, false⟩ 1000 rfl

/-! ### Robot boundary interface

The state and operations of `CRobot2NavInterface` below are modelled from
its header (`src/unnamed/part_001`) and the spec; the implementation file
with the default method bodies is not part of the repository slice. -/

/-- The kinematic models named in the header documentation. -/
inductive KinematicModel where
  | diffDriven
  | ackermann
  | holonomic
deriving DecidableEq

/-- Modelled from the spec: a velocity command
(`mrpt::kinematics::CVehicleVelCmd`) as a tagged value carrying its
kinematic model and its model-specific components. -/
structure CVehicleVelCmd where
  model : KinematicModel
  vel_params : List ℚ
deriving DecidableEq

/-- Modelled from the spec: the navigation clock owned by the boundary
(`m_navtime` in the header), recording the epoch from which elapsed time
is counted. -/
structure NavClock where
  start_time : ℚ
deriving DecidableEq

/-- Modelled from the spec and the header: the state owned by a
`CRobot2NavInterface` implementation — which kinematic models it accepts,
whether the platform can rotate in place, the watchdog, the last accepted
command, the flag of the last stop call, and the navigation clock. -/
structure CRobot2NavInterface where
  supportedModels : KinematicModel → Bool
  canRotateInPlace : Bool
  watchdog : WatchdogState
  lastCmd : Option CVehicleVelCmd
  lastStop : Option Bool
  m_navtime : NavClock

/-- Modelled from the spec: `changeSpeeds` dispatches a velocity command;
it succeeds exactly when the command's kinematic model is supported and
the underlying actuation succeeds, in which case it records the command
and touches the watchdog; on failure the boundary state is unchanged. -/
def changeSpeeds (rb : CRobot2NavInterface) (vel_cmd : CVehicleVelCmd)
    (now : ℚ) (actuation_ok : Bool) : CRobot2NavInterface × Bool :=
  if rb.supportedModels vel_cmd.model && actuation_ok then
    ({ rb with
        watchdog := touch rb.watchdog now
        lastCmd := some vel_cmd }, true)
  else (rb, false)

/-- Modelled from the spec: `changeSpeedsNOP` keeps the last command as
the preferred solution; its unique effect is resetting the watchdog
timer. -/
def changeSpeedsNOP (rb : CRobot2NavInterface) (now : ℚ) :
    CRobot2NavInterface × Bool :=
  ({ rb with watchdog := touch rb.watchdog now }, true)

/-- Modelled from the spec: `stop` commands an immediate halt, recording
whether it was an emergency stop or a planned one. -/
def stop (rb : CRobot2NavInterface) (isEmergencyStop : Bool) :
    CRobot2NavInterface × Bool :=
  ({ rb with lastStop := some isEmergencyStop }, true)

/-- The default value of the `isEmergencyStop` parameter, from the header
declaration `virtual bool stop(bool isEmergencyStop=true)`. -/
def stop_default_isEmergencyStop : Bool := true

/-- A call `stop()` with the argument omitted: the header's default
argument is substituted. -/
def stopOmittedArg (rb : CRobot2NavInterface) : CRobot2NavInterface × Bool :=
  stop rb stop_default_isEmergencyStop

/-- Modelled from the spec and the header documentation: `getAlignCmd`
returns a rotate-in-place command only for platforms capable of it, and
an empty result (`none`, not an error) otherwise. -/
def getAlignCmd (rb : CRobot2NavInterface)
    (relative_heading_radians : ℚ) : Option CVehicleVelCmd :=
  if rb.canRotateInPlace then
    some ⟨KinematicModel.holonomic, [relative_heading_radians]⟩
  else none

/-- Modelled from the header documentation: the default implementation of
`getAlignCmd` returns an empty smart pointer. -/
def getAlignCmd_default (relative_heading_radians : ℚ) :
    Option CVehicleVelCmd :=
  none

/-- Modelled from the spec: seconds elapsed since the clock's epoch
(construction of the interface or the last reset). -/
def getNavigationTime (rb : CRobot2NavInterface) (now : ℚ) : ℚ :=
  now - rb.m_navtime.start_time

/-- Modelled from the spec: `resetNavigationTimer` restarts the owned
navigation clock at the current instant. -/
def resetNavigationTimer (rb : CRobot2NavInterface) (now : ℚ) :
    CRobot2NavInterface :=
  { rb with m_navtime := ⟨now⟩ }

/-- The lifecycle event vocabulary, one constructor per callback declared
in the header. -/
inductive NavEvent where
  | navigationStart
  | navigationEnd
  | waypointReached (waypoint_index : Int) (reached_nSkipped : Bool)
  | newWaypointTarget (waypoint_index : Int)
  | navigationEndDueToError
  | waySeemsBlocked
deriving DecidableEq

/-- The event built by the `sendWaypointReachedEvent(waypoint_index,
reached_nSkipped)` callback of the header. -/
def sendWaypointReachedEvent (waypoint_index : Int)
    (reached_nSkipped : Bool) : NavEvent :=
  NavEvent.waypointReached waypoint_index reached_nSkipped

/-- How an intermediate waypoint was passed: physically reached (pose
entered the acceptance radius) or skipped by the navigator's
timeout/infeasibility heuristic. -/
inductive WaypointOutcome where
  | reached
  | skipped
deriving DecidableEq

/-- Modelled from the spec: progressing past an intermediate waypoint
fires the waypoint-reached event with the flag `true` exactly when the
waypoint was physically reached. -/
def waypointPassedEvent (waypoint_index : Int)
    (outcome : WaypointOutcome) : NavEvent :=
  sendWaypointReachedEvent waypoint_index
    (match outcome with
      | WaypointOutcome.reached => true
      | WaypointOutcome.skipped => false)

/-- The kind (name) of an event, forgetting its payload. -/
def eventKind : NavEvent → Nat
  | NavEvent.navigationStart => 0
  | NavEvent.navigationEnd => 1
  | NavEvent.waypointReached _ _ => 2
  | NavEvent.newWaypointTarget _ => 3
  | NavEvent.navigationEndDueToError => 4
  | NavEvent.waySeemsBlocked => 5

/-- A concrete differential-drive boundary with an armed watchdog, used by
the witnesses below. -/
def rbDiff : CRobot2NavInterface :=
  ⟨fun m => match m with
    | KinematicModel.diffDriven => true
    | _ => false,
   false, ⟨true, 200, 300, false⟩, none, none, ⟨0⟩⟩

/-- A concrete differential-drive velocity command. -/
def cmdDiff : CVehicleVelCmd := ⟨KinematicModel.diffDriven, [1, 0]⟩

/-- C4.  `changeSpeeds` succeeds exactly when the command's kinematic
model is supported and the actuation succeeds; on success it touches the
watchdog (resetting `deadline = now + period` while armed); on failure
the boundary state is unchanged, so no physical action is taken. -/
theorem changeSpeeds_contract (rb : CRobot2NavInterface)
    (vel_cmd : CVehicleVelCmd) (now : ℚ) (actuation_ok : Bool) :
    ((changeSpeeds rb vel_cmd now actuation_ok).2 = true ↔
        rb.supportedModels vel_cmd.model = true ∧ actuation_ok = true) ∧
      ((changeSpeeds rb vel_cmd now actuation_ok).2 = true →
        (changeSpeeds rb vel_cmd now actuation_ok).1.watchdog =
            touch rb.watchdog now ∧
          (rb.watchdog.armed = true →
            (changeSpeeds rb vel_cmd now actuation_ok).1.watchdog.deadline =
              now + rb.watchdog.period)) ∧
      ((changeSpeeds rb vel_cmd now actuation_ok).2 = false →
        (changeSpeeds rb vel_cmd now actuation_ok).1 = rb) := by
  unfold changeSpeeds
  by_cases h : rb.supportedModels vel_cmd.model && actuation_ok
  · rw [if_pos h]
    rw [Bool.and_eq_true] at h
    refine ⟨by simpa using h, ?_, by simp⟩
    intro _
    refine ⟨rfl, ?_⟩
    intro ha
    show (touch rb.watchdog now).deadline = now + rb.watchdog.period
    rw [touch_of_armed now ha]
  · rw [if_neg h]
    rw [Bool.and_eq_true] at h
    exact ⟨by simpa using h, by simp, fun _ => rfl⟩

/-- Witness for C4: dispatching a supported differential-drive command at
time `500` on `rbDiff` succeeds and resets the armed watchdog's deadline
to `500 + 200`. -/
theorem changeSpeeds_contract_witness :
    (changeSpeeds rbDiff cmdDiff 500 true).2 = true ∧
      (changeSpeeds rbDiff cmdDiff 500 true).1.watchdog.deadline =
        500 + 200 := by
  have h := changeSpeeds_contract rbDiff cmdDiff 500 true
  have h2 : (changeSpeeds rbDiff cmdDiff 500 true).2 = true :=
    h.1.mpr ⟨rfl, rfl⟩
  have h3 := (h.2.1 h2).2 rfl
  exact ⟨h2, by rw [h3]; rfl⟩

/-- C5.  `changeSpeedsNOP` always succeeds, its unique effect is touching
the watchdog (resetting `deadline = now + period` while armed): the last
command and every other boundary field are unchanged. -/
theorem changeSpeedsNOP_contract (rb : CRobot2NavInterface) (now : ℚ) :
    (changeSpeedsNOP rb now).2 = true ∧
      (changeSpeedsNOP rb now).1 =
        { rb with watchdog := touch rb.watchdog now } ∧
      (changeSpeedsNOP rb now).1.lastCmd = rb.lastCmd ∧
      (changeSpeedsNOP rb now).1.lastStop = rb.lastStop ∧
      (rb.watchdog.armed = true →
        (changeSpeedsNOP rb now).1.watchdog.deadline =
          now + rb.watchdog.period) := by
  refine ⟨rfl, rfl, rfl, rfl, ?_⟩
  intro ha
  show (touch rb.watchdog now).deadline = now + rb.watchdog.period
  rw [touch_of_armed now ha]

/-- Witness for C5: the no-op refresh at time `500` on `rbDiff` succeeds,
keeps the last command, and resets the deadline to `500 + 200`. -/
theorem changeSpeedsNOP_contract_witness :
    (changeSpeedsNOP rbDiff 500).2 = true ∧
      (changeSpeedsNOP rbDiff 500).1.lastCmd = rbDiff.lastCmd ∧
      (changeSpeedsNOP rbDiff 500).1.watchdog.deadline = 500 + 200 := by
  have h := changeSpeedsNOP_contract rbDiff 500
  exact ⟨h.1, h.2.2.1, by rw [h.2.2.2.2 rfl]; rfl⟩

/-- C6.  `getNavigationTime` returns the duration since the clock's epoch;
after `resetNavigationTimer` at `t0` it returns `now - t0`, and zero at
the reset instant itself.  Time is an explicit parameter, so the same
definitions serve a real or a simulated time source. -/
theorem getNavigationTime_elapsed (rb : CRobot2NavInterface)
    (t0 now : ℚ) :
    getNavigationTime rb now = now - rb.m_navtime.start_time ∧
      getNavigationTime (resetNavigationTimer rb t0) now = now - t0 ∧
      getNavigationTime (resetNavigationTimer rb t0) t0 = 0 := by
  refine ⟨rfl, rfl, ?_⟩
  show t0 - t0 = 0
  ring

/-- Witness for C6: after a reset at `100`, the elapsed time at `250`
is `150`. -/
theorem getNavigationTime_elapsed_witness :
    getNavigationTime (resetNavigationTimer rbDiff 100) 250 = 150 := by
  rw [(getNavigationTime_elapsed rbDiff 100 250).2.1]
  norm_num

/-- C7.  On a platform that cannot rotate in place, `getAlignCmd` returns
the empty result `none` for every relative heading — a capability answer,
not an error (the functions are total) — and the default implementation
behaves the same way. -/
theorem getAlignCmd_unsupported (rb : CRobot2NavInterface)
    (relative_heading_radians : ℚ) (h : rb.canRotateInPlace = false) :
    getAlignCmd rb relative_heading_radians = none ∧
      getAlignCmd_default relative_heading_radians = none := by
  constructor
  · unfold getAlignCmd
    rw [h]
    simp
  · rfl

/-- Witness for C7: `rbDiff` cannot rotate in place, and asking it to
align returns the empty result. -/
theorem getAlignCmd_unsupported_witness :
    rbDiff.canRotateInPlace = false ∧
      (getAlignCmd rbDiff 1 = none ∧ getAlignCmd_default 1 = none) :=
  ⟨rfl, getAlignCmd_unsupported rbDiff 1 rfl⟩

/-- C9.  Passing an intermediate waypoint, reached or skipped, fires the
one `sendWaypointReachedEvent` event kind; the boolean flag is `true`
exactly for a physically reached waypoint and `false` exactly for a
skipped one, and flipping the flag never changes the event kind. -/
theorem waypointReached_single_event_kind (waypoint_index : Int)
    (outcome : WaypointOutcome) :
    ∃ flag : Bool,
      waypointPassedEvent waypoint_index outcome =
          sendWaypointReachedEvent waypoint_index flag ∧
        eventKind (sendWaypointReachedEvent waypoint_index flag) =
          eventKind (sendWaypointReachedEvent waypoint_index (!flag)) ∧
        (flag = true ↔ outcome = WaypointOutcome.reached) ∧
        (flag = false ↔ outcome = WaypointOutcome.skipped) := by
  cases outcome
  · exact ⟨true, rfl, rfl, by simp, by simp⟩
  · exact ⟨false, rfl, rfl, by simp, by simp⟩

/-- Witness for C9: skipping waypoint `2` fires the waypoint-reached
event with some flag distinguishing it, of the same kind as the reached
variant. -/
theorem waypointReached_single_event_kind_witness :
    ∃ flag : Bool,
      waypointPassedEvent 2 WaypointOutcome.skipped =
          sendWaypointReachedEvent 2 flag ∧
        eventKind (sendWaypointReachedEvent 2 flag) =
          eventKind (sendWaypointReachedEvent 2 (!flag)) ∧
        (flag = true ↔ WaypointOutcome.skipped = WaypointOutcome.reached) ∧
        (flag = false ↔ WaypointOutcome.skipped = WaypointOutcome.skipped) :=
  waypointReached_single_event_kind 2 WaypointOutcome.skipped

/-- C10.  The header declares `stop(bool isEmergencyStop=true)`: a call
with the argument omitted is an emergency stop, and differs observably
from the planned stop `stop(false)`. -/
theorem stop_default_is_emergency (rb : CRobot2NavInterface) :
    stop_default_isEmergencyStop = true ∧
      stopOmittedArg rb = stop rb true ∧
      (stopOmittedArg rb).1.lastStop = some true ∧
      (stop rb false).1.lastStop = some false ∧
      (stopOmittedArg rb).1.lastStop ≠ (stop rb false).1.lastStop := by
  refine ⟨rfl, rfl, rfl, rfl, ?_⟩
  show some true ≠ some false
  simp

/-- Witness for C10: on `rbDiff`, the argument-omitted stop records an
emergency stop. -/
theorem stop_default_is_emergency_witness :
    (stopOmittedArg rbDiff).1.lastStop = some true :=
  (stop_default_is_emergency rbDiff).2.2.1

end MrptNav
